import Mathlib

/-!
Verification development for the consul-mcp repository.

The Python sources are shallowly embedded as executable Lean definitions:

* `Json` models the JSON values handled by `json.dumps` payloads; tool
  results are modelled at the level of the object that is serialized,
  since every property of interest concerns fields of that object.
* `ClientOps` models the `ConsulClient` instance as seen by the
  `ToolHandler` in `mcp_tools.py`: one `Except`-valued operation per
  client method (a Python exception raised by a client call is an
  `Except.error`, normal return is `Except.ok`).
* The bodies of `ToolHandler.handle_tool_call` and of every
  `_handle_*` method of `mcp_tools.py` are translated line by line.
* The internals of `ConsulClient` (`consul_client.py`) that the claims
  need are embedded separately against small models of the Consul
  backend: a key-value store model for the KV methods and an agent
  service table for the tag/meta read-modify-write methods.
-/

set_option autoImplicit false

namespace ConsulMcp

/-- JSON values, as produced by the repository via json.dumps. -/
inductive Json where
  | null : Json
  | bool : Bool → Json
  | num : Int → Json
  | str : String → Json
  | arr : List Json → Json
  | obj : List (String × Json) → Json

/-- Python dict.get over the parsed arguments object. -/
def argGet (args : List (String × Json)) (k : String) : Option Json :=
  match args with
  | [] => none
  | (k₁, v) :: rest => if k₁ = k then some v else argGet rest k

/-- Python dict.get with a default value. -/
def argGetD (args : List (String × Json)) (k : String) (d : Json) : Json :=
  (argGet args k).getD d

/-- A possibly-missing argument as it appears inside a json.dumps payload:
Python None serializes as JSON null. -/
def optJson (o : Option Json) : Json :=
  o.getD Json.null

/-- Python truthiness of a JSON value (None, False, 0, empty string, empty
list and empty dict are falsy). -/
def pyTruthy : Json → Bool
  | Json.null => false
  | Json.bool b => b
  | Json.num n => n ≠ 0
  | Json.str s => ¬ s.isEmpty
  | Json.arr xs => ¬ xs.isEmpty
  | Json.obj fs => ¬ fs.isEmpty

mutual

/-- Python repr of a JSON value (used by str() on non-string values). -/
def pyRepr : Json → String
  | Json.null => "None"
  | Json.bool true => "True"
  | Json.bool false => "False"
  | Json.num n => toString n
  | Json.str s => "\x27" ++ s ++ "\x27"
  | Json.arr xs => "[" ++ pyReprItems xs ++ "]"
  | Json.obj fs => "\x7b" ++ pyReprFields fs ++ "\x7d"

/-- Comma-separated repr of list items. -/
def pyReprItems : List Json → String
  | [] => ""
  | [x] => pyRepr x
  | x :: y :: rest => pyRepr x ++ ", " ++ pyReprItems (y :: rest)

/-- Comma-separated repr of dict fields. -/
def pyReprFields : List (String × Json) → String
  | [] => ""
  | [kv] => "\x27" ++ kv.1 ++ "\x27: " ++ pyRepr kv.2
  | kv :: kv₂ :: rest =>
      "\x27" ++ kv.1 ++ "\x27: " ++ pyRepr kv.2 ++ ", " ++ pyReprFields (kv₂ :: rest)

end

/-- Python str() of a possibly-missing value, as interpolated by the
f-strings in the handlers (str of a string is itself, of None is None). -/
def pyStr (o : Option Json) : String :=
  match o with
  | none => "None"
  | some (Json.str s) => s
  | some j => pyRepr j

/-- Field lookup in a JSON object (none for non-objects or absent keys). -/
def jsonField (j : Json) (k : String) : Option Json :=
  match j with
  | Json.obj fs => argGet fs k
  | _ => none

/-- One text content item of a tool result (mcp.types.TextContent); the
text field holds the object that json.dumps serializes. -/
structure TextContent where
  text : Json

/-- The ConsulClient interface as consumed by ToolHandler in
mcp_tools.py: one operation per client method, with Python exceptions
modelled as Except.error. Argument types mirror exactly what the
handlers pass (raw arguments.get results, hence Option Json). -/
structure ClientOps where
  list_services : Option Json → Except String (List String)
  get_service : Option Json → Option Json → Except String (List Json)
  get_service_instance_count : Option Json → Option Json → Except String Nat
  get_services_summary : Option Json → Except String Json
  register_service : Option Json → Option Json → Option Json → Option Json →
      Json → Option Json → Json → Except String Unit
  deregister_service : Option Json → Except String Unit
  get_kv : Option Json → Option Json → Except String (Option Json)
  put_kv : Option Json → Option Json → Option Json → Except String Bool
  list_kv : Json → Option Json → Except String (List String)
  delete_kv : Option Json → Option Json → Except String Bool
  get_nodes : Option Json → Except String (List Json)
  get_service_health : Option Json → Option Json → Except String (List Json)
  get_service_instance_meta : Option Json → Except String (List (String × String))
  set_service_instance_meta : Option Json → List (Option Json × Option Json) →
      Except String (List (String × String))
  delete_service_instance_meta_keys : Option Json → List (Option Json) →
      Except String (List (String × String))
  get_service_instance_tags : Option Json → Except String (List String)
  set_service_instance_tags : Option Json → Json → Except String (List String)

/-- Renders a string-to-string map as the JSON object json.dumps emits. -/
def metaObj (m : List (String × String)) : Json :=
  Json.obj (m.map (fun kv => (kv.1, Json.str kv.2)))

/-- ToolHandler._handle_list_services. -/
def _handle_list_services (ops : ClientOps) (args : List (String × Json)) :
    Except String (List TextContent) := do
  let dc := argGet args "datacenter"
  let service_list ← ops.list_services dc
  pure [⟨Json.obj [("services", Json.arr (service_list.map Json.str)),
                   ("count", Json.num service_list.length)]⟩]

/-- ToolHandler._handle_get_service. -/
def _handle_get_service (ops : ClientOps) (args : List (String × Json)) :
    Except String (List TextContent) := do
  let service_name := argGet args "service_name"
  let dc := argGet args "datacenter"
  let nodes ← ops.get_service service_name dc
  pure [⟨Json.obj [("service", optJson service_name),
                   ("instances", Json.arr nodes),
                   ("count", Json.num nodes.length)]⟩]

/-- ToolHandler._handle_get_service_instance_count. -/
def _handle_get_service_instance_count (ops : ClientOps)
    (args : List (String × Json)) : Except String (List TextContent) := do
  let service_name := argGet args "service_name"
  let dc := argGet args "datacenter"
  let count ← ops.get_service_instance_count service_name dc
  pure [⟨Json.obj [("service", optJson service_name),
                   ("count", Json.num count)]⟩]

/-- ToolHandler._handle_get_monitoring_summary. -/
def _handle_get_monitoring_summary (ops : ClientOps)
    (args : List (String × Json)) : Except String (List TextContent) := do
  let dc := argGet args "datacenter"
  let summary ← ops.get_services_summary dc
  pure [⟨summary⟩]

/-- ToolHandler._handle_register_service. -/
def _handle_register_service (ops : ClientOps) (args : List (String × Json)) :
    Except String (List TextContent) := do
  let _ ← ops.register_service (argGet args "name") (argGet args "service_id")
      (argGet args "address") (argGet args "port")
      (argGetD args "tags" (Json.arr []))
      (argGet args "check_http") (argGetD args "check_interval" (Json.str "10s"))
  pure [⟨Json.obj [("status", Json.str "success"),
                   ("message", Json.str ("Service " ++ pyStr (argGet args "name") ++
                                         " registered successfully"))]⟩]

/-- ToolHandler._handle_deregister_service. -/
def _handle_deregister_service (ops : ClientOps) (args : List (String × Json)) :
    Except String (List TextContent) := do
  let service_id := argGet args "service_id"
  let _ ← ops.deregister_service service_id
  pure [⟨Json.obj [("status", Json.str "success"),
                   ("message", Json.str ("Service " ++ pyStr service_id ++
                                         " deregistered successfully"))]⟩]

/-- ToolHandler._handle_get_kv. -/
def _handle_get_kv (ops : ClientOps) (args : List (String × Json)) :
    Except String (List TextContent) := do
  let key := argGet args "key"
  let dc := argGet args "datacenter"
  let data ← ops.get_kv key dc
  match data with
  | some d =>
      if pyTruthy d then
        pure [⟨d⟩]
      else
        pure [⟨Json.obj [("key", optJson key), ("value", Json.null),
                         ("message", Json.str "Key not found")]⟩]
  | none =>
      pure [⟨Json.obj [("key", optJson key), ("value", Json.null),
                       ("message", Json.str "Key not found")]⟩]

/-- ToolHandler._handle_put_kv. -/
def _handle_put_kv (ops : ClientOps) (args : List (String × Json)) :
    Except String (List TextContent) := do
  let key := argGet args "key"
  let value := argGet args "value"
  let dc := argGet args "datacenter"
  let result ← ops.put_kv key value dc
  pure [⟨Json.obj [("status", Json.str (if result then "success" else "failed")),
                   ("key", optJson key),
                   ("value", optJson value)]⟩]

/-- ToolHandler._handle_list_kv. -/
def _handle_list_kv (ops : ClientOps) (args : List (String × Json)) :
    Except String (List TextContent) := do
  let pfx := argGetD args "prefix" (Json.str "")
  let dc := argGet args "datacenter"
  let key_list ← ops.list_kv pfx dc
  pure [⟨Json.obj [("prefix", pfx),
                   ("keys", Json.arr (key_list.map Json.str)),
                   ("count", Json.num key_list.length)]⟩]

/-- ToolHandler._handle_delete_kv. -/
def _handle_delete_kv (ops : ClientOps) (args : List (String × Json)) :
    Except String (List TextContent) := do
  let key := argGet args "key"
  let dc := argGet args "datacenter"
  let result ← ops.delete_kv key dc
  pure [⟨Json.obj [("status", Json.str (if result then "success" else "failed")),
                   ("key", optJson key),
                   ("message", Json.str ("Key " ++ pyStr key ++ " deleted"))]⟩]

/-- ToolHandler._handle_get_nodes. -/
def _handle_get_nodes (ops : ClientOps) (args : List (String × Json)) :
    Except String (List TextContent) := do
  let dc := argGet args "datacenter"
  let nodes ← ops.get_nodes dc
  pure [⟨Json.obj [("nodes", Json.arr nodes),
                   ("count", Json.num nodes.length)]⟩]

/-- ToolHandler._handle_get_service_health. -/
def _handle_get_service_health (ops : ClientOps) (args : List (String × Json)) :
    Except String (List TextContent) := do
  let service_name := argGet args "service_name"
  let dc := argGet args "datacenter"
  let checks ← ops.get_service_health service_name dc
  pure [⟨Json.obj [("service", optJson service_name),
                   ("health_checks", Json.arr checks),
                   ("count", Json.num checks.length)]⟩]

/-- ToolHandler._handle_get_service_meta. -/
def _handle_get_service_meta (ops : ClientOps) (args : List (String × Json)) :
    Except String (List TextContent) := do
  let service_id := argGet args "service_id"
  let meta ← ops.get_service_instance_meta service_id
  pure [⟨Json.obj [("service_id", optJson service_id),
                   ("meta", metaObj meta),
                   ("count", Json.num meta.length)]⟩]

/-- ToolHandler._handle_set_service_meta_key. -/
def _handle_set_service_meta_key (ops : ClientOps) (args : List (String × Json)) :
    Except String (List TextContent) := do
  let service_id := argGet args "service_id"
  let key := argGet args "key"
  let value := argGet args "value"
  let updated_meta ← ops.set_service_instance_meta service_id [(key, value)]
  pure [⟨Json.obj [("status", Json.str "success"),
                   ("service_id", optJson service_id),
                   ("key", optJson key),
                   ("updated_meta", metaObj updated_meta)]⟩]

/-- ToolHandler._handle_delete_service_meta_key. -/
def _handle_delete_service_meta_key (ops : ClientOps)
    (args : List (String × Json)) : Except String (List TextContent) := do
  let service_id := argGet args "service_id"
  let key := argGet args "key"
  let updated_meta ← ops.delete_service_instance_meta_keys service_id [key]
  pure [⟨Json.obj [("status", Json.str "success"),
                   ("service_id", optJson service_id),
                   ("deleted_key", optJson key),
                   ("updated_meta", metaObj updated_meta)]⟩]

/-- ToolHandler._handle_set_service_meta_bulk. -/
def _handle_set_service_meta_bulk (ops : ClientOps)
    (args : List (String × Json)) : Except String (List TextContent) := do
  let service_id := argGet args "service_id"
  let meta := match argGet args "meta" with
    | some j => if pyTruthy j then j else Json.obj []
    | none => Json.obj []
  match meta with
  | Json.obj fs => do
      let updated_meta ← ops.set_service_instance_meta service_id
          (fs.map (fun kv => (some (Json.str kv.1), some kv.2)))
      pure [⟨Json.obj [("status", Json.str "success"),
                       ("service_id", optJson service_id),
                       ("updated_meta", metaObj updated_meta),
                       ("keys_updated", Json.arr (fs.map (fun kv => Json.str kv.1)))]⟩]
  | _ => Except.error "meta must be a dictionary/object"

/-- ToolHandler._handle_list_service_meta_keys. -/
def _handle_list_service_meta_keys (ops : ClientOps)
    (args : List (String × Json)) : Except String (List TextContent) := do
  let service_id := argGet args "service_id"
  let meta ← ops.get_service_instance_meta service_id
  let keys := meta.map (fun kv => kv.1)
  pure [⟨Json.obj [("service_id", optJson service_id),
                   ("keys", Json.arr (keys.map Json.str)),
                   ("count", Json.num keys.length)]⟩]

/-- ToolHandler._handle_get_service_tags. -/
def _handle_get_service_tags (ops : ClientOps) (args : List (String × Json)) :
    Except String (List TextContent) := do
  let service_id := argGet args "service_id"
  let tags ← ops.get_service_instance_tags service_id
  pure [⟨Json.obj [("service_id", optJson service_id),
                   ("tags", Json.arr (tags.map Json.str)),
                   ("count", Json.num tags.length)]⟩]

/-- ToolHandler._handle_set_service_tags. Note: unlike every other
list-returning handler, the emitted object has no count field. -/
def _handle_set_service_tags (ops : ClientOps) (args : List (String × Json)) :
    Except String (List TextContent) := do
  let service_id := argGet args "service_id"
  let tags := match argGet args "tags" with
    | some j => if pyTruthy j then j else Json.arr []
    | none => Json.arr []
  let updated ← ops.set_service_instance_tags service_id tags
  pure [⟨Json.obj [("status", Json.str "success"),
                   ("service_id", optJson service_id),
                   ("tags", Json.arr (updated.map Json.str))]⟩]

/-- The if/elif dispatch chain inside ToolHandler.handle_tool_call:
none when the name matches no branch (the final else). -/
def dispatchTool (ops : ClientOps) (name : String) (args : List (String × Json)) :
    Option (Except String (List TextContent)) :=
  if name = "list_services" then some (_handle_list_services ops args)
  else if name = "get_service" then some (_handle_get_service ops args)
  else if name = "get_service_instance_count" then
    some (_handle_get_service_instance_count ops args)
  else if name = "get_monitoring_summary" then
    some (_handle_get_monitoring_summary ops args)
  else if name = "register_service" then some (_handle_register_service ops args)
  else if name = "deregister_service" then some (_handle_deregister_service ops args)
  else if name = "get_kv" then some (_handle_get_kv ops args)
  else if name = "put_kv" then some (_handle_put_kv ops args)
  else if name = "list_kv" then some (_handle_list_kv ops args)
  else if name = "delete_kv" then some (_handle_delete_kv ops args)
  else if name = "get_nodes" then some (_handle_get_nodes ops args)
  else if name = "get_service_health" then some (_handle_get_service_health ops args)
  else if name = "get_service_meta" then some (_handle_get_service_meta ops args)
  else if name = "set_service_meta_key" then
    some (_handle_set_service_meta_key ops args)
  else if name = "delete_service_meta_key" then
    some (_handle_delete_service_meta_key ops args)
  else if name = "set_service_meta_bulk" then
    some (_handle_set_service_meta_bulk ops args)
  else if name = "list_service_meta_keys" then
    some (_handle_list_service_meta_keys ops args)
  else if name = "get_service_tags" then some (_handle_get_service_tags ops args)
  else if name = "set_service_tags" then some (_handle_set_service_tags ops args)
  else none

/-- ToolHandler.handle_tool_call: dispatch on the tool name, turn the
final else branch into the unknown-tool payload, and turn any exception
raised by a handler into the structured error payload of the except
block. The Lean return type (no Except) records that the method never
raises. -/
def handle_tool_call (ops : ClientOps) (name : String)
    (args : List (String × Json)) : List TextContent :=
  match dispatchTool ops name args with
  | some (Except.ok r) => r
  | some (Except.error e) =>
      [⟨Json.obj [("error", Json.str e), ("tool", Json.str name)]⟩]
  | none =>
      [⟨Json.obj [("error", Json.str ("Unknown tool: " ++ name))]⟩]

/-- A tool catalog entry: the name and the required field list of its
declared input schema, from get_tool_definitions in mcp_tools.py. -/
structure ToolDef where
  name : String
  required : List String

/-- get_tool_definitions: the static tool catalog (names and required
fields of each declared inputSchema, in declaration order). -/
def toolDefinitions : List ToolDef :=
  [⟨"list_services", []⟩,
   ⟨"get_service", ["service_name"]⟩,
   ⟨"get_service_instance_count", ["service_name"]⟩,
   ⟨"get_monitoring_summary", []⟩,
   ⟨"register_service", ["name", "address", "port"]⟩,
   ⟨"deregister_service", ["service_id"]⟩,
   ⟨"get_kv", ["key"]⟩,
   ⟨"put_kv", ["key", "value"]⟩,
   ⟨"list_kv", []⟩,
   ⟨"delete_kv", ["key"]⟩,
   ⟨"get_nodes", []⟩,
   ⟨"get_service_health", ["service_name"]⟩,
   ⟨"get_service_meta", ["service_id"]⟩,
   ⟨"set_service_meta_key", ["service_id", "key", "value"]⟩,
   ⟨"delete_service_meta_key", ["service_id", "key"]⟩,
   ⟨"set_service_meta_bulk", ["service_id", "meta"]⟩,
   ⟨"list_service_meta_keys", ["service_id"]⟩,
   ⟨"get_service_tags", ["service_id"]⟩,
   ⟨"set_service_tags", ["service_id", "tags"]⟩]

/-- The names of the catalog tools. -/
def toolNames : List String :=
  toolDefinitions.map (fun t => t.name)

/-- The required field list a tool name declares in its input schema. -/
def requiredOf (name : String) : List String :=
  ((toolDefinitions.find? (fun t => t.name = name)).map (fun t => t.required)).getD []

end ConsulMcp

namespace ConsulMcp

/-! ### ConsulClient.get_services_summary (consul_client.py lines 99-119)

The client is abstracted by the outcome of list_services and by the
per-service get_service_instance_count primitive; a raised exception is
an Except.error and propagates out of the for loop exactly as in
Python. The summary dict insertion is modelled by assoc-list update. -/

/-- Python dict insertion summary[name] = cnt (replace or append). -/
def natAssocSet (m : List (String × Nat)) (k : String) (v : Nat) :
    List (String × Nat) :=
  match m with
  | [] => [(k, v)]
  | (k₁, v₁) :: rest =>
      if k₁ = k then (k, v) :: rest else (k₁, v₁) :: natAssocSet rest k v

/-- The for loop of get_services_summary: folds the per-service counts
into the summary dict and the running total, propagating the first
raised exception. -/
def summaryLoop (cnt : String → Except String Nat) :
    List String → List (String × Nat) → Nat →
    Except String (List (String × Nat) × Nat)
  | [], summary, total => Except.ok (summary, total)
  | n :: rest, summary, total => do
      let c ← cnt n
      summaryLoop cnt rest (natAssocSet summary n c) (total + c)

/-- ConsulClient.get_services_summary: list the service names, loop the
count primitive over them, and build the result object with services,
total_services and total_instances fields. -/
def get_services_summary (listS : Except String (List String))
    (cnt : String → Except String Nat) : Except String Json := do
  let names ← listS
  let (summary, total_instances) ← summaryLoop cnt names [] 0
  pure (Json.obj [("services", Json.obj (summary.map (fun kv => (kv.1, Json.num kv.2)))),
                  ("total_services", Json.num summary.length),
                  ("total_instances", Json.num total_instances)])

/-! ### KV store model and ConsulClient.get_kv / put_kv / delete_kv

The Consul KV backend is an external collaborator; it is modelled at
its interface contract: a store mapping keys to entries holding the
stored byte string (bytes are modelled as the UTF-8 string they decode
to, so an empty value is the empty string, which is falsy in Python),
a Flags word and the create/modify Raft indexes. put stores exactly
the bytes given and returns True; delete removes the key and returns
True; get returns the entry or nothing. -/

/-- One stored KV entry of the backend. -/
structure KVEntry where
  value : String
  flags : Nat
  createIndex : Nat
  modifyIndex : Nat

/-- The backend KV store: a monotone index counter plus the entries. -/
structure KVStore where
  index : Nat
  entries : List (String × KVEntry)

/-- Assoc-list update for KV entries. -/
def kvAssocSet (m : List (String × KVEntry)) (k : String) (v : KVEntry) :
    List (String × KVEntry) :=
  match m with
  | [] => [(k, v)]
  | (k₁, v₁) :: rest =>
      if k₁ = k then (k, v) :: rest else (k₁, v₁) :: kvAssocSet rest k v

/-- Assoc-list removal for KV entries. -/
def kvAssocRemove (m : List (String × KVEntry)) (k : String) :
    List (String × KVEntry) :=
  match m with
  | [] => []
  | (k₁, v₁) :: rest =>
      if k₁ = k then kvAssocRemove rest k else (k₁, v₁) :: kvAssocRemove rest k

/-- Assoc-list lookup for KV entries. -/
def kvAssocGet (m : List (String × KVEntry)) (k : String) : Option KVEntry :=
  match m with
  | [] => none
  | (k₁, v₁) :: rest => if k₁ = k then some v₁ else kvAssocGet rest k

/-- Backend self.client.kv.get: the stored entry for the key, if any. -/
def kvBackendGet (st : KVStore) (key : String) : Option KVEntry :=
  kvAssocGet st.entries key

/-- Backend self.client.kv.put: stores the value with Flags 0, bumping
the modify index (and the create index for a fresh key); returns True. -/
def kvBackendPut (st : KVStore) (key : String) (value : String) :
    KVStore × Bool :=
  let i := st.index + 1
  let entry : KVEntry :=
    match kvAssocGet st.entries key with
    | some e => ⟨value, 0, e.createIndex, i⟩
    | none => ⟨value, 0, i, i⟩
  (⟨i, kvAssocSet st.entries key entry⟩, true)

/-- Backend self.client.kv.delete: removes the key; returns True. -/
def kvBackendDelete (st : KVStore) (key : String) : KVStore × Bool :=
  (⟨st.index + 1, kvAssocRemove st.entries key⟩, true)

/-- ConsulClient.get_kv (consul_client.py lines 162-182): on a found
entry, decodes the value — but data.Value is falsy for an empty byte
string, in which case value becomes None — and returns the five-field
record; on a missing key returns None. -/
def client_get_kv (st : KVStore) (key : String) : Option Json :=
  match kvBackendGet st key with
  | some data =>
      some (Json.obj
        [("key", Json.str key),
         ("value", if data.value.isEmpty then Json.null else Json.str data.value),
         ("flags", Json.num data.flags),
         ("create_index", Json.num data.createIndex),
         ("modify_index", Json.num data.modifyIndex)])
  | none => none

/-- ConsulClient.put_kv: delegates to the backend put. -/
def client_put_kv (st : KVStore) (key : String) (value : String) :
    KVStore × Bool :=
  kvBackendPut st key value

/-- ConsulClient.delete_kv: delegates to the backend delete. -/
def client_delete_kv (st : KVStore) (key : String) : KVStore × Bool :=
  kvBackendDelete st key

/-- ToolHandler._handle_get_kv specialised to the concrete client over a
KV store state (the if data / else branch of mcp_tools.py lines
494-512). -/
def handle_get_kv_payload (st : KVStore) (key : String) : Json :=
  match client_get_kv st key with
  | some data => data
  | none => Json.obj [("key", Json.str key), ("value", Json.null),
                      ("message", Json.str "Key not found")]

/-! ### Agent service table and the tag/meta read-modify-write methods
(consul_client.py lines 244-393)

agent.services() is a dict from service ID to the service record; the
fields the code touches are ID, Service, Address, Port, Tags, Meta and
EnableTagOverride. Re-registration through
_register_service_definition replaces the whole record for that ID
(passing no Meta key and passing an empty Meta both leave the
registered service with empty meta, so the definition dict is modelled
with its Tags and Meta collapsed to possibly-empty lists). -/

/-- One record of agent.services(). -/
structure AgentService where
  id : String
  service : String
  address : String
  port : Int
  tags : List String
  meta : List (String × String)
  enableTagOverride : Bool

/-- The agent service table, keyed by service ID. -/
def AgentState := List (String × AgentService)

/-- String assoc-list lookup. -/
def strAssocGet {α : Type} (m : List (String × α)) (k : String) : Option α :=
  match m with
  | [] => none
  | (k₁, v₁) :: rest => if k₁ = k then some v₁ else strAssocGet rest k

/-- String assoc-list update (Python dict item assignment). -/
def strAssocSet {α : Type} (m : List (String × α)) (k : String) (v : α) :
    List (String × α) :=
  match m with
  | [] => [(k, v)]
  | (k₁, v₁) :: rest =>
      if k₁ = k then (k, v) :: rest else (k₁, v₁) :: strAssocSet rest k v

/-- String assoc-list removal (Python dict.pop with default). -/
def strAssocRemove {α : Type} (m : List (String × α)) (k : String) :
    List (String × α) :=
  match m with
  | [] => []
  | (k₁, v₁) :: rest =>
      if k₁ = k then strAssocRemove rest k else (k₁, v₁) :: strAssocRemove rest k

/-- Python dict(base) followed by .update(upd). -/
def strAssocMerge (base upd : List (String × String)) :
    List (String × String) :=
  upd.foldl (fun m kv => strAssocSet m kv.1 kv.2) base

/-- ConsulClient._get_agent_service: raises ValueError when the ID is
not in agent.services(). -/
def _get_agent_service (st : AgentState) (service_id : String) :
    Except String AgentService :=
  match strAssocGet st service_id with
  | some svc => Except.ok svc
  | none => Except.error ("Service ID \x27" ++ service_id ++ "\x27 not found on agent")

/-- ConsulClient.get_service_instance_meta: the Meta dict of the record. -/
def get_service_instance_meta (st : AgentState) (service_id : String) :
    Except String (List (String × String)) := do
  let svc ← _get_agent_service st service_id
  pure svc.meta

/-- ConsulClient.get_service_instance_tags: the Tags list of the record. -/
def get_service_instance_tags (st : AgentState) (service_id : String) :
    Except String (List String) := do
  let svc ← _get_agent_service st service_id
  pure svc.tags

/-- The registration definition built by _build_registration_from_agent
(consul_client.py lines 321-358). Tags and Meta are the possibly-empty
lists that re-registration will install. -/
structure Registration where
  id : String
  name : String
  address : String
  port : Int
  tags : List String
  meta : List (String × String)
  enableTagOverride : Bool

/-- ConsulClient._build_registration_from_agent: copies the identity
fields (with the Name falling back to the ID when the Service field is
empty), takes new_tags when given and the existing tags otherwise, and
— crucially — when new_meta is given merges it ON TOP OF the existing
meta (merged = dict(existing_meta); merged.update(new_meta)). -/
def _build_registration_from_agent (svc : AgentService)
    (new_meta : Option (List (String × String)))
    (new_tags : Option (List String)) : Registration :=
  { id := svc.id
    name := if svc.service.isEmpty then svc.id else svc.service
    address := svc.address
    port := svc.port
    tags := match new_tags with
      | some t => t
      | none => svc.tags
    meta := match new_meta with
      | some m => strAssocMerge svc.meta m
      | none => svc.meta
    enableTagOverride := svc.enableTagOverride }

/-- ConsulClient._register_service_definition applied to the agent
table: agent.service.register replaces (or creates) the record with
the given ID with exactly the fields of the definition. -/
def _register_service_definition (st : AgentState) (reg : Registration) :
    AgentState :=
  strAssocSet st reg.id
    { id := reg.id
      service := reg.name
      address := reg.address
      port := reg.port
      tags := reg.tags
      meta := reg.meta
      enableTagOverride := reg.enableTagOverride }

/-- ConsulClient.set_service_instance_meta: read the record, build the
merged registration, re-register, read the meta back. Returns the new
agent state together with the meta the method returns. -/
def set_service_instance_meta (st : AgentState) (service_id : String)
    (meta_patch : List (String × String)) :
    Except String (AgentState × List (String × String)) := do
  let svc ← _get_agent_service st service_id
  let reg := _build_registration_from_agent svc (some meta_patch) none
  let st₁ := _register_service_definition st reg
  let meta ← get_service_instance_meta st₁ service_id
  pure (st₁, meta)

/-- ConsulClient.delete_service_instance_meta_keys: pops the keys from
a copy of the current meta, then hands the pruned dict to
_build_registration_from_agent as new_meta, re-registers and reads the
meta back. Returns the new agent state together with the returned
meta. -/
def delete_service_instance_meta_keys (st : AgentState) (service_id : String)
    (keys : List String) :
    Except String (AgentState × List (String × String)) := do
  let svc ← _get_agent_service st service_id
  let current_meta := keys.foldl (fun m k => strAssocRemove m k) svc.meta
  let reg := _build_registration_from_agent svc (some current_meta) none
  let st₁ := _register_service_definition st reg
  let meta ← get_service_instance_meta st₁ service_id
  pure (st₁, meta)

/-- ConsulClient.set_service_instance_tags: read the record, build the
registration with the new tags, re-register, read the tags back. -/
def set_service_instance_tags (st : AgentState) (service_id : String)
    (tags : List String) : Except String (AgentState × List String) := do
  let svc ← _get_agent_service st service_id
  let reg := _build_registration_from_agent svc none (some tags)
  let st₁ := _register_service_definition st reg
  let tags₁ ← get_service_instance_tags st₁ service_id
  pure (st₁, tags₁)

/-! ### GET /health (server.py lines 133-149) -/

/-- health_check in server.py, abstracted over the outcome of
evaluating consul_client and consul_client.is_connected(): ok true
when the check reports connected, ok false when there is no client or
the check reports not connected, error when the evaluation raises.
FastAPI serializes a returned dict with status code 200, so the result
is the pair of the HTTP status and the body. -/
def health_check (check : Except String Bool) : Nat × Json :=
  match check with
  | Except.ok true => (200, Json.obj [("status", Json.str "healthy"),
                                      ("consul", Json.str "connected")])
  | Except.ok false => (200, Json.obj [("status", Json.str "unhealthy"),
                                       ("consul", Json.str "not_connected")])
  | Except.error e => (200, Json.obj [("status", Json.str "unhealthy"),
                                      ("error", Json.str e)])

/-- ConsulClient.is_connected: False when there is no client object,
otherwise True exactly when agent.self() does not raise. Never raises. -/
def is_connected (hasClient : Bool) (agentSelf : Except String Unit) : Bool :=
  if hasClient = false then false
  else match agentSelf with
    | Except.ok _ => true
    | Except.error _ => false

/-! ### ResourceHandler.read_resource (mcp_resources.py lines 47-89)
and handle_read_resource (server.py lines 263-274)

The URI is modelled after urlparse: by its scheme and path. The
backend snapshot providers are abstracted as Except-valued values. -/

/-- The backend snapshots read_resource can serve. -/
structure ResourceBackend where
  list_services : Except String (List String)
  get_nodes : Except String (List Json)

/-- ResourceHandler.read_resource: unknown scheme raises ValueError
before the try block; unknown path raises ValueError inside it, and
the except block re-raises every exception, so all errors propagate
out of the method (Except.error) rather than being returned as a
payload. -/
def read_resource (b : ResourceBackend) (scheme path : String) :
    Except String Json :=
  if scheme ≠ "consul" then
    Except.error ("Unknown URI scheme: " ++ scheme)
  else if path = "/services" then do
    let services ← b.list_services
    pure (Json.obj [("services", Json.arr (services.map Json.str)),
                    ("count", Json.num services.length)])
  else if path = "/nodes" then do
    let nodes ← b.get_nodes
    pure (Json.obj [("nodes", Json.arr nodes),
                    ("count", Json.num nodes.length)])
  else
    Except.error ("Unknown resource path: " ++ path)

/-- handle_read_resource in server.py: raises RuntimeError when the
resource handler is unavailable, and otherwise forwards the result of
read_resource without catching anything. -/
def handle_read_resource (handlerAvailable : Bool) (b : ResourceBackend)
    (scheme path : String) : Except String Json :=
  if handlerAvailable then read_resource b scheme path
  else Except.error "Consul client not initialized"

end ConsulMcp

namespace ConsulMcp

/-! ### Support lemmas -/

/-- A non-empty string has isEmpty false. -/
theorem isEmpty_false_of_ne (v : String) (h : v ≠ "") : v.isEmpty = false := by
  cases hb : v.isEmpty
  · rfl
  · exact absurd ((String.isEmpty_iff v).mp hb) h

/-- Looking up a key right after setting it yields the set entry. -/
theorem kvAssocGet_set (m : List (String × KVEntry)) (k : String) (v : KVEntry) :
    kvAssocGet (kvAssocSet m k v) k = some v := by
  induction m with
  | nil => simp [kvAssocSet, kvAssocGet]
  | cons hd tl ih =>
      obtain ⟨k₁, v₁⟩ := hd
      by_cases h : k₁ = k <;> simp [kvAssocSet, kvAssocGet, h, ih]

/-- Looking up a key right after removing it yields nothing. -/
theorem kvAssocGet_remove (m : List (String × KVEntry)) (k : String) :
    kvAssocGet (kvAssocRemove m k) k = none := by
  induction m with
  | nil => simp [kvAssocRemove, kvAssocGet]
  | cons hd tl ih =>
      obtain ⟨k₁, v₁⟩ := hd
      by_cases h : k₁ = k <;> simp [kvAssocRemove, kvAssocGet, h, ih]

/-- Inserting a key absent from the dict appends it. -/
theorem natAssocSet_append (m : List (String × Nat)) (k : String) (v : Nat)
    (h : ∀ p ∈ m, p.1 ≠ k) : natAssocSet m k v = m ++ [(k, v)] := by
  induction m with
  | nil => simp [natAssocSet]
  | cons hd tl ih =>
      obtain ⟨k₁, v₁⟩ := hd
      have hk : k₁ ≠ k := h (k₁, v₁) (List.mem_cons_self _ _)
      simp only [natAssocSet, if_neg hk, List.cons_append, List.cons.injEq, true_and]
      exact ih (fun p hp => h p (List.mem_cons_of_mem _ hp))

/-- The summary for loop, run over distinct fresh names whose counts
all succeed, extends the dict in order and adds up all the counts. -/
theorem summaryLoop_ok (cnt : String → Except String Nat) (f : String → Nat) :
    ∀ (names : List String) (summary : List (String × Nat)) (total : Nat),
      names.Nodup → (∀ n ∈ names, cnt n = Except.ok (f n)) →
      (∀ p ∈ summary, p.1 ∉ names) →
      summaryLoop cnt names summary total =
        Except.ok (summary ++ names.map (fun n => (n, f n)),
                   total + (names.map f).sum) := by
  intro names
  induction names with
  | nil => intro summary total _ _ _; simp [summaryLoop]
  | cons n rest ih =>
      intro summary total hnd hcnt hfresh
      have hn : cnt n = Except.ok (f n) := hcnt n (List.mem_cons_self _ _)
      have hset : natAssocSet summary n (f n) = summary ++ [(n, f n)] :=
        natAssocSet_append summary n (f n)
          (fun p hp => fun he => hfresh p hp (he ▸ List.mem_cons_self _ _))
      have hrest := ih (summary ++ [(n, f n)]) (total + f n)
        (List.Nodup.of_cons hnd)
        (fun m hm => hcnt m (List.mem_cons_of_mem _ hm))
        (by
          intro p hp
          rcases List.mem_append.mp hp with hp₁ | hp₁
          · exact fun hmem => hfresh p hp₁ (List.mem_cons_of_mem _ hmem)
          · have : p = (n, f n) := by simpa using hp₁
            subst this
            exact (List.nodup_cons.mp hnd).1)
      simp only [summaryLoop, hn, hset, bind, Except.bind]
      rw [hrest]
      simp [List.append_assoc, Nat.add_assoc]

/-- If the count of some listed name raises, the summary loop raises. -/
theorem summaryLoop_error (cnt : String → Except String Nat) :
    ∀ (names : List String) (summary : List (String × Nat)) (total : Nat)
      (n : String), n ∈ names → (∃ e, cnt n = Except.error e) →
      ∃ e₁, summaryLoop cnt names summary total = Except.error e₁ := by
  intro names
  induction names with
  | nil => intro _ _ n hn _; exact absurd hn (List.not_mem_nil n)
  | cons m rest ih =>
      intro summary total n hn he
      cases hm : cnt m with
      | error e => exact ⟨e, by simp [summaryLoop, hm, bind, Except.bind]⟩
      | ok c =>
          rcases List.mem_cons.mp hn with h | h
          · subst h
            rcases he with ⟨e, he⟩
            rw [hm] at he
            exact absurd he (fun hc => Except.noConfusion hc)
          · have := ih (natAssocSet summary m c) (total + c) n h he
            rcases this with ⟨e₁, h₁⟩
            exact ⟨e₁, by simp [summaryLoop, hm, h₁, bind, Except.bind]⟩

/-- A field selector over a one-element tool result. -/
def resultField (r : List TextContent) (k : String) : Option Json :=
  match r with
  | [c] => jsonField c.text k
  | _ => none

/-- A ConsulClient stub whose every operation raises. -/
def trivOps : ClientOps where
  list_services := fun _ => Except.error "unavailable"
  get_service := fun _ _ => Except.error "unavailable"
  get_service_instance_count := fun _ _ => Except.error "unavailable"
  get_services_summary := fun _ => Except.error "unavailable"
  register_service := fun _ _ _ _ _ _ _ => Except.error "unavailable"
  deregister_service := fun _ => Except.error "unavailable"
  get_kv := fun _ _ => Except.error "unavailable"
  put_kv := fun _ _ _ => Except.error "unavailable"
  list_kv := fun _ _ => Except.error "unavailable"
  delete_kv := fun _ _ => Except.error "unavailable"
  get_nodes := fun _ => Except.error "unavailable"
  get_service_health := fun _ _ => Except.error "unavailable"
  get_service_instance_meta := fun _ => Except.error "unavailable"
  set_service_instance_meta := fun _ _ => Except.error "unavailable"
  delete_service_instance_meta_keys := fun _ _ => Except.error "unavailable"
  get_service_instance_tags := fun _ => Except.error "unavailable"
  set_service_instance_tags := fun _ _ => Except.error "unavailable"

/-- A ConsulClient whose register_service reports whether it was invoked
with a missing service name, and succeeds otherwise. -/
def probeOps : ClientOps :=
  { trivOps with
    register_service := fun n _ _ _ _ _ _ =>
      match n with
      | none => Except.error "backend invoked with name=None"
      | some _ => Except.ok () }

/-- A ConsulClient built from pure total functions: every operation used
by a list-returning handler succeeds with the value of the
corresponding function. -/
structure PureClient where
  services : Option Json → List String
  instances : Option Json → Option Json → List Json
  nodes : Option Json → List Json
  checks : Option Json → Option Json → List Json
  kvKeys : Json → Option Json → List String
  meta : Option Json → List (String × String)
  tags : Option Json → List String
  newTags : Option Json → Json → List String

/-- The ClientOps of a PureClient. -/
def mkPureOps (pc : PureClient) : ClientOps where
  list_services := fun dc => Except.ok (pc.services dc)
  get_service := fun sn dc => Except.ok (pc.instances sn dc)
  get_service_instance_count := fun _ _ => Except.error "not modelled"
  get_services_summary := fun _ => Except.error "not modelled"
  register_service := fun _ _ _ _ _ _ _ => Except.error "not modelled"
  deregister_service := fun _ => Except.error "not modelled"
  get_kv := fun _ _ => Except.error "not modelled"
  put_kv := fun _ _ _ => Except.error "not modelled"
  list_kv := fun p dc => Except.ok (pc.kvKeys p dc)
  delete_kv := fun _ _ => Except.error "not modelled"
  get_nodes := fun dc => Except.ok (pc.nodes dc)
  get_service_health := fun sn dc => Except.ok (pc.checks sn dc)
  get_service_instance_meta := fun sid => Except.ok (pc.meta sid)
  set_service_instance_meta := fun _ _ => Except.error "not modelled"
  delete_service_instance_meta_keys := fun _ _ => Except.error "not modelled"
  get_service_instance_tags := fun sid => Except.ok (pc.tags sid)
  set_service_instance_tags := fun sid t => Except.ok (pc.newTags sid t)

/-- A ConsulClient whose tag overwrite succeeds with a two-element list. -/
def tagsOps : ClientOps :=
  { trivOps with set_service_instance_tags := fun _ _ => Except.ok ["a", "b"] }

end ConsulMcp

namespace ConsulMcp

/-- C2: for every tool name outside the catalog and every argument map
and every backend, handle_tool_call returns the one-element structured
error payload whose error field names the unknown tool; the result is
a constant independent of the backend, so no backend operation can
influence it, and the Lean return type records that no exception
escapes. -/
theorem handle_tool_call_unknown_tool (ops : ClientOps) (name : String)
    (args : List (String × Json)) (h : name ∉ toolNames) :
    handle_tool_call ops name args =
      [⟨Json.obj [("error", Json.str ("Unknown tool: " ++ name))]⟩] := by
  simp only [toolNames, toolDefinitions, List.map_cons, List.map_nil,
    List.mem_cons, List.not_mem_nil, or_false, not_or] at h
  obtain ⟨h1, h2, h3, h4, h5, h6, h7, h8, h9, h10, h11, h12, h13, h14, h15,
    h16, h17, h18, h19⟩ := h
  simp [handle_tool_call, dispatchTool, h1, h2, h3, h4, h5, h6, h7, h8, h9,
    h10, h11, h12, h13, h14, h15, h16, h17, h18, h19]

/-- Witness for C2 at the concrete unknown name mystery_op. -/
theorem handle_tool_call_unknown_tool_witness :
    ("mystery_op" ∉ toolNames) ∧
    handle_tool_call trivOps "mystery_op" [] =
      [⟨Json.obj [("error", Json.str ("Unknown tool: " ++ "mystery_op"))]⟩] :=
  ⟨by decide, handle_tool_call_unknown_tool trivOps "mystery_op" [] (by decide)⟩

/-- C3: whenever the dispatched handler for a tool raises (any backend
failure surfaces as the Except.error of the dispatched branch),
handle_tool_call catches it and returns the structured error payload
carrying the failure message and the tool name; the Lean return type
of handle_tool_call (a plain list, not an Except) records that the
method is total and never propagates the exception. -/
theorem handle_tool_call_catches_backend_error (ops : ClientOps)
    (name : String) (args : List (String × Json)) (e : String)
    (h : dispatchTool ops name args = some (Except.error e)) :
    handle_tool_call ops name args =
      [⟨Json.obj [("error", Json.str e), ("tool", Json.str name)]⟩] := by
  simp [handle_tool_call, h]

/-- Witness for C3: a backend whose every call raises, at the catalog
tool get_kv. -/
theorem handle_tool_call_catches_backend_error_witness :
    dispatchTool trivOps "get_kv" [] = some (Except.error "unavailable") ∧
    handle_tool_call trivOps "get_kv" [] =
      [⟨Json.obj [("error", Json.str "unavailable"), ("tool", Json.str "get_kv")]⟩] :=
  ⟨rfl, handle_tool_call_catches_backend_error trivOps "get_kv" [] "unavailable" rfl⟩

/-- C1 counterexample: register_service declares name as a required
schema field, yet handle_tool_call with an empty argument map does not
return a validation error — it invokes the backend registration with
name=None, as witnessed by a backend that reports exactly that
invocation, whose report becomes the returned payload. -/
theorem call_tool_no_schema_validation_cex :
    "name" ∈ requiredOf "register_service" ∧
    handle_tool_call probeOps "register_service" [] =
      [⟨Json.obj [("error", Json.str "backend invoked with name=None"),
                  ("tool", Json.str "register_service")]⟩] :=
  ⟨by decide, rfl⟩

/-- C1 amended: handle_tool_call performs no required-field validation
against a tool's declared schema — the register_service branch invokes
the backend operation with the raw arguments for every argument map
(missing fields passed as None, the Python defaults for tags and
check_interval), the outcome alone deciding between the success
payload and the caught structured error payload — while the one
pre-invocation argument check in the dispatcher is the meta type check
of set_service_meta_bulk: a truthy non-object meta yields the caught
structured validation error, a constant independent of the backend, so
no backend operation is invoked for it. -/
theorem call_tool_argument_handling (ops : ClientOps)
    (args : List (String × Json)) :
    (handle_tool_call ops "register_service" args =
      match ops.register_service (argGet args "name") (argGet args "service_id")
          (argGet args "address") (argGet args "port")
          (argGetD args "tags" (Json.arr []))
          (argGet args "check_http") (argGetD args "check_interval" (Json.str "10s")) with
      | Except.ok _ =>
          [⟨Json.obj [("status", Json.str "success"),
                      ("message", Json.str ("Service " ++ pyStr (argGet args "name") ++
                                            " registered successfully"))]⟩]
      | Except.error e =>
          [⟨Json.obj [("error", Json.str e), ("tool", Json.str "register_service")]⟩]) ∧
    (∀ j, argGet args "meta" = some j → pyTruthy j = true → (∀ fs, j ≠ Json.obj fs) →
      handle_tool_call ops "set_service_meta_bulk" args =
        [⟨Json.obj [("error", Json.str "meta must be a dictionary/object"),
                    ("tool", Json.str "set_service_meta_bulk")]⟩]) := by
  constructor
  · have hd : dispatchTool ops "register_service" args =
        some (_handle_register_service ops args) := rfl
    cases h : ops.register_service (argGet args "name") (argGet args "service_id")
        (argGet args "address") (argGet args "port")
        (argGetD args "tags" (Json.arr []))
        (argGet args "check_http") (argGetD args "check_interval" (Json.str "10s")) with
    | ok u =>
        simp [handle_tool_call, hd, _handle_register_service, h, bind, Except.bind,
          pure, Except.pure]
    | error e =>
        simp [handle_tool_call, hd, _handle_register_service, h, bind, Except.bind,
          pure, Except.pure]
  · intro j hj htruthy hnotobj
    have hd : dispatchTool ops "set_service_meta_bulk" args =
        some (_handle_set_service_meta_bulk ops args) := rfl
    cases j with
    | obj fs => exact absurd rfl (hnotobj fs)
    | null =>
        simp [pyTruthy] at htruthy
    | bool b =>
        simp [handle_tool_call, hd, _handle_set_service_meta_bulk, hj, htruthy]
    | num n =>
        simp [handle_tool_call, hd, _handle_set_service_meta_bulk, hj, htruthy]
    | str s =>
        simp [handle_tool_call, hd, _handle_set_service_meta_bulk, hj, htruthy]
    | arr xs =>
        simp [handle_tool_call, hd, _handle_set_service_meta_bulk, hj, htruthy]

/-- Witness for C1 amended: a truthy string-valued meta argument makes
the set_service_meta_bulk branch return the validation error without
any backend involvement. -/
theorem call_tool_argument_handling_witness :
    handle_tool_call trivOps "set_service_meta_bulk" [("meta", Json.str "oops")] =
      [⟨Json.obj [("error", Json.str "meta must be a dictionary/object"),
                  ("tool", Json.str "set_service_meta_bulk")]⟩] :=
  (call_tool_argument_handling trivOps [("meta", Json.str "oops")]).2
    (Json.str "oops") rfl rfl (fun _fs h => Json.noConfusion h)

/-- C7 counterexample: the set_service_tags handler returns a
list-shaped result (the tags list) with no count field. -/
theorem set_service_tags_missing_count_cex :
    handle_tool_call tagsOps "set_service_tags"
        [("service_id", Json.str "s1"), ("tags", Json.arr [Json.str "a", Json.str "b"])] =
      [⟨Json.obj [("status", Json.str "success"), ("service_id", Json.str "s1"),
                  ("tags", Json.arr [Json.str "a", Json.str "b"])]⟩] ∧
    resultField (handle_tool_call tagsOps "set_service_tags"
        [("service_id", Json.str "s1"),
         ("tags", Json.arr [Json.str "a", Json.str "b"])]) "count" = none :=
  ⟨rfl, rfl⟩

/-- C7 amended: on every successful backend call, every list-returning
handler except set_service_tags emits a count field equal to the
length of the emitted list (services, instances, keys, nodes, health
checks, meta entries, meta keys, tags), while the set_service_tags
result carries no count field. -/
theorem list_results_carry_count (pc : PureClient) (args : List (String × Json)) :
    resultField (handle_tool_call (mkPureOps pc) "list_services" args) "count" =
      some (Json.num (pc.services (argGet args "datacenter")).length) ∧
    resultField (handle_tool_call (mkPureOps pc) "get_service" args) "count" =
      some (Json.num (pc.instances (argGet args "service_name")
            (argGet args "datacenter")).length) ∧
    resultField (handle_tool_call (mkPureOps pc) "list_kv" args) "count" =
      some (Json.num (pc.kvKeys (argGetD args "prefix" (Json.str ""))
            (argGet args "datacenter")).length) ∧
    resultField (handle_tool_call (mkPureOps pc) "get_nodes" args) "count" =
      some (Json.num (pc.nodes (argGet args "datacenter")).length) ∧
    resultField (handle_tool_call (mkPureOps pc) "get_service_health" args) "count" =
      some (Json.num (pc.checks (argGet args "service_name")
            (argGet args "datacenter")).length) ∧
    resultField (handle_tool_call (mkPureOps pc) "get_service_meta" args) "count" =
      some (Json.num (pc.meta (argGet args "service_id")).length) ∧
    resultField (handle_tool_call (mkPureOps pc) "list_service_meta_keys" args) "count" =
      some (Json.num ((pc.meta (argGet args "service_id")).map (fun kv => kv.1)).length) ∧
    resultField (handle_tool_call (mkPureOps pc) "get_service_tags" args) "count" =
      some (Json.num (pc.tags (argGet args "service_id")).length) ∧
    resultField (handle_tool_call (mkPureOps pc) "set_service_tags" args) "count" = none :=
  ⟨rfl, rfl, rfl, rfl, rfl, rfl, rfl, rfl, rfl⟩

end ConsulMcp

namespace ConsulMcp

/-- C4: when every per-service count call succeeds over the distinct
listed names, get_services_summary returns the object whose services
field maps each listed name to its count, whose total_services is the
number of names and whose total_instances is the sum of the counts;
and if the count call of any listed name raises, the whole aggregate
call raises (no partial result). -/
theorem get_services_summary_correct :
    (∀ (cnt : String → Except String Nat) (names : List String) (f : String → Nat),
      names.Nodup → (∀ n ∈ names, cnt n = Except.ok (f n)) →
      get_services_summary (Except.ok names) cnt =
        Except.ok (Json.obj
          [("services", Json.obj (names.map (fun n => (n, Json.num (f n))))),
           ("total_services", Json.num names.length),
           ("total_instances", Json.num ((names.map f).sum))])) ∧
    (∀ (cnt : String → Except String Nat) (names : List String) (n : String),
      n ∈ names → (∃ e, cnt n = Except.error e) →
      ∃ e₁, get_services_summary (Except.ok names) cnt = Except.error e₁) := by
  constructor
  · intro cnt names f hnd hcnt
    have h := summaryLoop_ok cnt f names [] 0 hnd hcnt
      (by intro p hp; exact absurd hp (List.not_mem_nil p))
    simp [get_services_summary, bind, Except.bind, pure, Except.pure, h,
      List.map_map, Function.comp, List.length_map]
  · intro cnt names n hn he
    rcases summaryLoop_error cnt names [] 0 n hn he with ⟨e₁, h₁⟩
    exact ⟨e₁, by simp [get_services_summary, bind, Except.bind, h₁]⟩

/-- The per-service count oracle of the spec scenario with services
web: 3 and cache: 1, raising for any other name. -/
def webCacheCnt : String → Except String Nat := fun n =>
  if n = "web" then Except.ok 3
  else if n = "cache" then Except.ok 1
  else Except.error "backend failure"

/-- Witness for C4: the spec scenario services web: 3 and cache: 1
gives total_services 2 and total_instances 4, and a listing containing
a name whose count call raises makes the aggregate raise. -/
theorem get_services_summary_correct_witness :
    get_services_summary (Except.ok ["web", "cache"]) webCacheCnt =
      Except.ok (Json.obj
        [("services", Json.obj [("web", Json.num 3), ("cache", Json.num 1)]),
         ("total_services", Json.num 2),
         ("total_instances", Json.num 4)]) ∧
    (∃ e₁, get_services_summary (Except.ok ["web", "missing"]) webCacheCnt =
      Except.error e₁) := by
  constructor
  · have h := get_services_summary_correct.1 webCacheCnt ["web", "cache"]
      (fun n => if n = "web" then 3 else 1) (by decide)
      (by intro n hn; simp at hn; rcases hn with h | h <;> subst h <;> rfl)
    simpa using h
  · exact get_services_summary_correct.2 webCacheCnt ["web", "missing"] "missing"
      (by simp) ⟨"backend failure", rfl⟩

/-- A resource backend with empty snapshots. -/
def trivResourceBackend : ResourceBackend := ⟨Except.ok [], Except.ok []⟩

/-- C5 counterexample: for a URI with the unknown scheme http,
handle_read_resource propagates the ValueError raised by read_resource
(an Except.error, i.e. an exception reaching the SDK transport layer),
instead of returning a captured structured-error payload as a success. -/
theorem read_resource_unknown_scheme_cex :
    handle_read_resource true trivResourceBackend "http" "/services" =
      Except.error "Unknown URI scheme: http" := rfl

/-- C5 amended: an unknown scheme or unknown path makes read_resource
raise a ValueError naming the offending scheme or path, and
handle_read_resource in server.py propagates that exception to the SDK
layer rather than capturing it into a successful structured-error
response. -/
theorem read_resource_errors_raise (b : ResourceBackend) (scheme path : String) :
    (scheme ≠ "consul" →
      handle_read_resource true b scheme path =
        Except.error ("Unknown URI scheme: " ++ scheme)) ∧
    (path ≠ "/services" → path ≠ "/nodes" →
      handle_read_resource true b "consul" path =
        Except.error ("Unknown resource path: " ++ path)) := by
  constructor
  · intro h
    simp [handle_read_resource, read_resource, h]
  · intro h₁ h₂
    simp [handle_read_resource, read_resource, h₁, h₂]

/-- Witness for C5 amended at the scheme http and the path /bogus. -/
theorem read_resource_errors_raise_witness :
    (("http" : String) ≠ "consul" ∧
      handle_read_resource true trivResourceBackend "http" "/nodes" =
        Except.error ("Unknown URI scheme: " ++ "http")) ∧
    (("/bogus" : String) ≠ "/services" ∧
      handle_read_resource true trivResourceBackend "consul" "/bogus" =
        Except.error ("Unknown resource path: " ++ "/bogus")) :=
  ⟨⟨by decide, (read_resource_errors_raise trivResourceBackend "http" "/nodes").1 (by decide)⟩,
   ⟨by decide, (read_resource_errors_raise trivResourceBackend "consul" "/bogus").2
      (by decide) (by decide)⟩⟩

/-- An agent holding one service instance s1 with meta k=v, o=x. -/
def metaAgentState : AgentState :=
  [("s1", ⟨"s1", "web", "10.0.0.1", 8080, ["t1"], [("k", "v"), ("o", "x")], false⟩)]

/-- C6: evaluating delete_service_instance_meta_keys on an agent whose
service s1 carries meta key k shows the bug: the call succeeds, the
re-registered state is unchanged, and the meta returned after the call
still maps the deleted key k to its old value v — because the pruned
meta handed to _build_registration_from_agent as new_meta is merged on
top of the existing meta, which restores the popped key. -/
theorem delete_service_meta_key_keeps_key :
    ∃ m, delete_service_instance_meta_keys metaAgentState "s1" ["k"] =
        Except.ok (metaAgentState, m) ∧ strAssocGet m "k" = some "v" :=
  ⟨[("k", "v"), ("o", "x")], rfl, rfl⟩

/-- C8 counterexample: putting the empty-string value and reading the
key back yields value null, not a value equal to the stored empty
string (consul_client.get_kv turns the falsy empty byte string into
None). -/
theorem kv_put_empty_get_cex :
    jsonField (handle_get_kv_payload (client_put_kv ⟨0, []⟩ "k" "").1 "k") "value" =
      some Json.null ∧ Json.null ≠ Json.str "" :=
  ⟨rfl, fun h => Json.noConfusion h⟩

/-- C8 amended: for every store, key and NON-EMPTY string value, put
followed by get with no intervening write returns a value field equal
to the stored value; and delete followed by get returns the Key not
found payload (value null plus the not-found message), not an error. -/
theorem kv_roundtrip_amended (st : KVStore) (k v : String) :
    (v ≠ "" →
      jsonField (handle_get_kv_payload (client_put_kv st k v).1 k) "value" =
        some (Json.str v)) ∧
    handle_get_kv_payload (client_delete_kv st k).1 k =
      Json.obj [("key", Json.str k), ("value", Json.null),
                ("message", Json.str "Key not found")] := by
  constructor
  · intro hv
    have he := isEmpty_false_of_ne v hv
    cases hkv : kvAssocGet st.entries k with
    | none =>
        simp [handle_get_kv_payload, client_get_kv, client_put_kv, kvBackendPut,
          kvBackendGet, hkv, kvAssocGet_set, he, jsonField, argGet]
    | some e =>
        simp [handle_get_kv_payload, client_get_kv, client_put_kv, kvBackendPut,
          kvBackendGet, hkv, kvAssocGet_set, he, jsonField, argGet]
  · simp [handle_get_kv_payload, client_get_kv, client_delete_kv, kvBackendDelete,
      kvBackendGet, kvAssocGet_remove]

/-- Witness for C8 amended: round trip of value v under key k on the
empty store, and delete-then-get on the empty store. -/
theorem kv_roundtrip_amended_witness :
    jsonField (handle_get_kv_payload (client_put_kv ⟨0, []⟩ "k" "v").1 "k") "value" =
      some (Json.str "v") ∧
    handle_get_kv_payload (client_delete_kv ⟨0, []⟩ "k").1 "k" =
      Json.obj [("key", Json.str "k"), ("value", Json.null),
                ("message", Json.str "Key not found")] :=
  ⟨(kv_roundtrip_amended ⟨0, []⟩ "k" "v").1 (by decide),
   (kv_roundtrip_amended ⟨0, []⟩ "k" "v").2⟩

/-- C10: after putting an empty value under a key, get_kv returns a
found record: value is null, the flags field is present (0) together
with the index fields, and there is no not-found message — so the
record differs from the deleted-key response only by those fields. -/
theorem get_kv_empty_value_found (st : KVStore) (k : String) :
    ∃ ci mi, handle_get_kv_payload (client_put_kv st k "").1 k =
        Json.obj [("key", Json.str k), ("value", Json.null), ("flags", Json.num 0),
                  ("create_index", Json.num ci), ("modify_index", Json.num mi)] ∧
      jsonField (handle_get_kv_payload (client_put_kv st k "").1 k) "message" = none := by
  cases hkv : kvAssocGet st.entries k with
  | none =>
      refine ⟨st.index + 1, st.index + 1, ?_, ?_⟩
      · simp [handle_get_kv_payload, client_get_kv, client_put_kv, kvBackendPut,
          kvBackendGet, hkv, kvAssocGet_set,
          show ("" : String).isEmpty = true from rfl]
      · simp [handle_get_kv_payload, client_get_kv, client_put_kv, kvBackendPut,
          kvBackendGet, hkv, kvAssocGet_set, jsonField, argGet,
          show ("" : String).isEmpty = true from rfl]
  | some e =>
      refine ⟨e.createIndex, st.index + 1, ?_, ?_⟩
      · simp [handle_get_kv_payload, client_get_kv, client_put_kv, kvBackendPut,
          kvBackendGet, hkv, kvAssocGet_set,
          show ("" : String).isEmpty = true from rfl]
      · simp [handle_get_kv_payload, client_get_kv, client_put_kv, kvBackendPut,
          kvBackendGet, hkv, kvAssocGet_set, jsonField, argGet,
          show ("" : String).isEmpty = true from rfl]

/-- C9: for every outcome of the backend connectivity evaluation,
health_check answers HTTP 200; the body is the healthy/connected
object exactly when the check reports connected, the
unhealthy/not_connected object when it reports not connected, and an
unhealthy body carrying the error message when the evaluation raises —
degradation is reported in the body, never via the status code. -/
theorem health_check_always_200 (check : Except String Bool) :
    (health_check check).1 = 200 ∧
    (check = Except.ok true →
      (health_check check).2 =
        Json.obj [("status", Json.str "healthy"), ("consul", Json.str "connected")]) ∧
    (check = Except.ok false →
      (health_check check).2 =
        Json.obj [("status", Json.str "unhealthy"), ("consul", Json.str "not_connected")]) ∧
    (∀ e, check = Except.error e →
      (health_check check).2 =
        Json.obj [("status", Json.str "unhealthy"), ("error", Json.str e)]) := by
  cases check with
  | ok b => cases b <;> simp [health_check]
  | error e => simp [health_check]

/-- Witness for C9 at the three concrete connectivity outcomes. -/
theorem health_check_always_200_witness :
    (health_check (Except.ok true)).1 = 200 ∧
    (health_check (Except.ok true)).2 =
      Json.obj [("status", Json.str "healthy"), ("consul", Json.str "connected")] ∧
    (health_check (Except.ok false)).2 =
      Json.obj [("status", Json.str "unhealthy"), ("consul", Json.str "not_connected")] ∧
    (health_check (Except.error "connection refused")).2 =
      Json.obj [("status", Json.str "unhealthy"), ("error", Json.str "connection refused")] :=
  ⟨(health_check_always_200 (Except.ok true)).1,
   (health_check_always_200 (Except.ok true)).2.1 rfl,
   (health_check_always_200 (Except.ok false)).2.2.1 rfl,
   (health_check_always_200 (Except.error "connection refused")).2.2.2
     "connection refused" rfl⟩

end ConsulMcp
